import Mathlib

/-!
Verification of the Crypto-simulator backend (server.js and its deployment
variants) against its natural-language specification.

The development shallowly embeds the parts of the code the claims refer to:

* the kline ("candle") positional mapper of the klines handler;
* the symbol allow-list filters of the ticker and exchangeInfo handlers;
* the three upstream fetch helpers (fetchBinance, fetchBinanceUS,
  fetchBinanceData), modelled as a configuration record plus a function
  from terminal request events (full response / socket error / silence)
  to the promise outcome;
* the URL construction of the price and klines handlers;
* the JSON response envelopes, modelled as association lists from field
  names to values so that the presence and content of fields can be stated.

JavaScript numbers are modelled as rationals (all numeric literals involved
are exactly representable), and the platform builtins used by the code
(parseFloat, String.prototype.toUpperCase, String.prototype.substring,
JSON.parse) are modelled explicitly; JSON.parse is kept abstract as a
parameter since no claim depends on its internals.
-/

namespace CryptoSim

/-- A JavaScript value as it can occur in a kline row cell: a (finite)
number, a string, a boolean, or undefined (the result of reading a missing
array index). -/
inductive JCell where
  | num (q : ℚ)
  | str (s : String)
  | bool (b : Bool)
  | undef
deriving DecidableEq

/-- The result of JS parseFloat: a finite number or NaN. -/
inductive JNum where
  | num (q : ℚ)
  | nan
deriving DecidableEq

/-- JS array indexing a[i]: the element when in bounds, undefined otherwise. -/
def jsIndex : List JCell → ℕ → JCell
  | [], _ => .undef
  | c :: _, 0 => c
  | _ :: cs, n + 1 => jsIndex cs n

/-- Split a leading run of decimal digits off a character list. -/
def takeDigits : List Char → List Char × List Char
  | [] => ([], [])
  | c :: cs =>
    if c.isDigit then
      let p := takeDigits cs
      (c :: p.1, p.2)
    else ([], c :: cs)

/-- Value of a digit run read in base 10. -/
def digitsVal (ds : List Char) : ℕ :=
  ds.foldl (fun a c => 10 * a + (c.toNat - 48)) 0

/-- Parse an unsigned decimal literal prefix (digits, optionally followed by
a point and fractional digits); none when no digit is present. The value of
digits i followed by k fractional digits f is (i * 10 ^ k + f) / 10 ^ k. -/
def parseDecCore (cs : List Char) : Option ℚ :=
  let ip := takeDigits cs
  match ip.2 with
  | '.' :: r2 =>
    let fp := takeDigits r2
    if ip.1.isEmpty && fp.1.isEmpty then none
    else some (mkRat (Int.ofNat (digitsVal ip.1 * 10 ^ fp.1.length + digitsVal fp.1)) (10 ^ fp.1.length))
  | _ => if ip.1.isEmpty then none else some (mkRat (Int.ofNat (digitsVal ip.1)) 1)

/-- Modelled platform builtin: JS parseFloat on a string, restricted to plain
(optionally signed) decimal literals, which is the shape of the OHLCV fields
the code parses; anything else yields NaN. -/
def jsParseFloatChars : List Char → Option ℚ
  | '-' :: cs => (parseDecCore cs).map (fun q => -q)
  | '+' :: cs => parseDecCore cs
  | cs => parseDecCore cs

/-- Modelled platform builtin: JS parseFloat applied to an arbitrary value,
as the klines handler does with row cells. A missing cell (undefined) and a
non-numeric string give NaN. -/
def jsParseFloat : JCell → JNum
  | .str s =>
    match jsParseFloatChars s.data with
    | some q => .num q
    | none => .nan
  | .num q => .num q
  | .bool _ => .nan
  | .undef => .nan

/-- The candle object built by the klines handler for one upstream row:
fields openTime, open, high, low, close, volume, closeTime, trades.
The JS field name open is a Lean keyword and is rendered open_. -/
structure Candle where
  openTime : JCell
  open_ : JNum
  high : JNum
  low : JNum
  close : JNum
  volume : JNum
  closeTime : JCell
  trades : JCell
deriving DecidableEq

/-- The positional kline-to-candle transform of the klines handler
(server.js, data.map(k => ({openTime: k[0], open: parseFloat(k[1]), ...,
closeTime: k[6], trades: k[8]}))). -/
def formatKline (k : List JCell) : Candle :=
  { openTime := jsIndex k 0
    open_ := jsParseFloat (jsIndex k 1)
    high := jsParseFloat (jsIndex k 2)
    low := jsParseFloat (jsIndex k 3)
    close := jsParseFloat (jsIndex k 4)
    volume := jsParseFloat (jsIndex k 5)
    closeTime := jsIndex k 6
    trades := jsIndex k 8 }

/-- An upstream ticker or exchange-info entry: the symbol field the filters
inspect, plus the remaining passthrough fields. -/
structure SymbolEntry where
  symbol : String
  fields : List (String × JCell)
deriving DecidableEq

/-- The fixed allow-list of the ticker handler (server.js, mainPairs). -/
def mainPairsTicker : List String :=
  ["BTCUSDT", "ETHUSDT", "BNBUSDT", "SOLUSDT",
   "XRPUSDT", "ADAUSDT", "AVAXUSDT", "DOGEUSDT",
   "DOTUSDT", "MATICUSDT", "LINKUSDT", "LTCUSDT",
   "UNIUSDT", "ATOMUSDT", "SHIBUSDT"]

/-- The fixed allow-list of the exchangeInfo handler (server.js, mainPairs
inside the exchangeInfo route). -/
def mainPairsExchangeInfo : List String :=
  ["BTCUSDT", "ETHUSDT", "BNBUSDT", "SOLUSDT"]

/-- The ticker handler filter: data.filter(ticker => mainPairs.includes(ticker.symbol)). -/
def filterTicker (data : List SymbolEntry) : List SymbolEntry :=
  data.filter (fun t => mainPairsTicker.contains t.symbol)

/-- The exchangeInfo handler filter: data.symbols.filter(s => mainPairs.includes(s.symbol)). -/
def filterExchangeInfo (symbols : List SymbolEntry) : List SymbolEntry :=
  symbols.filter (fun s => mainPairsExchangeInfo.contains s.symbol)

/-- Timeout registration of a fetch helper: req.setTimeout(ms, ...) together
with what the callback does (req.destroy(); reject(new Error(message))). -/
structure TimeoutCfg where
  ms : ℕ
  message : String
  destroysRequest : Bool
deriving DecidableEq

/-- Static configuration of one fetch helper: the hardcoded hostname (none
for fetchBinance, which takes a full URL), the registered timeout if any,
and an optional truncation applied to the body inside the non-200 error
message (data.substring(0, n)). -/
structure FetchConfig where
  hostname : Option String
  timeout : Option TimeoutCfg
  bodyTruncation : Option ℕ
deriving DecidableEq

/-- fetchBinance (server.js lines 73-117): headers-only request helper,
no setTimeout call, full body in the HTTP error message. -/
def fetchBinanceCfg : FetchConfig :=
  { hostname := none, timeout := none, bodyTruncation := none }

/-- fetchBinanceUS (Binance.US variant): 10-second timeout that destroys the
request and rejects with Request timeout; HTTP error body truncated via
data.substring(0, 200). -/
def fetchBinanceUSCfg : FetchConfig :=
  { hostname := some "api.binance.us"
    timeout := some { ms := 10000, message := "Request timeout", destroysRequest := true }
    bodyTruncation := some 200 }

/-- fetchBinanceData (data.binance.com variant): 10-second timeout that
destroys the request and rejects with Request timeout; full body in the
HTTP error message. -/
def fetchBinanceDataCfg : FetchConfig :=
  { hostname := some "data.binance.com"
    timeout := some { ms := 10000, message := "Request timeout", destroysRequest := true }
    bodyTruncation := none }

/-- The terminal event of one outbound request: a complete response with a
status code and accumulated body, a socket error, or silence (no response
and no error, ever). -/
inductive FetchEvent where
  | response (status : ℕ) (body : String)
  | socketError (message : String)
  | silence

/-- Modelled platform builtin: JS s.substring(0, n) - the first n characters
of s (all of s when it is shorter). -/
def jsSubstring0 (s : String) (n : ℕ) : String :=
  String.mk (s.data.take n)

/-- The body as it appears in the non-200 error message of a fetch helper:
truncated by substring(0, n) when the helper does so, verbatim otherwise. -/
def truncateBody (cfg : FetchConfig) (body : String) : String :=
  match cfg.bodyTruncation with
  | some n => jsSubstring0 body n
  | none => body

/-- Promise outcome of one fetch call, by case on the terminal event,
following the shared handler structure of the three fetch helpers:
status 200 resolves with the parsed JSON or rejects Invalid JSON response,
non-200 rejects HTTP (code): (body), a socket error rejects with its
message, and silence rejects via the registered timeout - or, when no
timeout is registered, never settles (modelled as none). JSON.parse is
abstracted as the parse argument. -/
def fetchOutcome {α : Type} (cfg : FetchConfig) (parse : String → Option α) :
    FetchEvent → Option (Except String α)
  | .response status body =>
    if status = 200 then
      match parse body with
      | some v => some (.ok v)
      | none => some (.error "Invalid JSON response")
    else
      some (.error ("HTTP " ++ toString status ++ ": " ++ truncateBody cfg body))
  | .socketError msg => some (.error msg)
  | .silence =>
    match cfg.timeout with
    | some t => some (.error t.message)
    | none => none

/-- Modelled platform builtin: JS String.prototype.toUpperCase on basic-latin
strings, mapping Char.toUpper over the characters (what Lean String.toUpper
also does). -/
def jsToUpper (s : String) : String :=
  String.mk (s.data.map Char.toUpper)

/-- True when the character is an ASCII lowercase letter. -/
def isAsciiLowerChar (c : Char) : Bool :=
  97 ≤ c.toNat && c.toNat ≤ 122

/-- True when the string contains an ASCII lowercase letter. -/
def hasAsciiLower (s : String) : Bool :=
  s.data.any isAsciiLowerChar

/-- Upstream URL built by the price handler: the symbol path segment is
uppercased when present (symbol.toUpperCase()), otherwise the all-symbols
endpoint is used. -/
def priceUrl (symbol : Option String) : String :=
  match symbol with
  | some s => "https://api.binance.com/api/v3/ticker/price?symbol=" ++ jsToUpper s
  | none => "https://api.binance.com/api/v3/ticker/price"

/-- Upstream URL built by the klines handler from its query parameters with
their defaults (BTCUSDT, 1h, 60); the supplied values are interpolated
verbatim. -/
def klinesUrl (qsymbol qinterval qlimit : Option String) : String :=
  "https://api.binance.com/api/v3/klines?symbol=" ++ (qsymbol.getD "BTCUSDT") ++
    "&interval=" ++ (qinterval.getD "1h") ++ "&limit=" ++ (qlimit.getD "60")

/-- A field value inside a JSON response envelope: a boolean, string or
number literal, or the payload of the enclosing handler. -/
inductive EnvValue (α : Type) where
  | bool (b : Bool)
  | str (s : String)
  | num (q : ℚ)
  | payload (a : α)
deriving DecidableEq

/-- Read a field of a JSON object modelled as an association list. -/
def getField {α : Type} : List (String × EnvValue α) → String → Option (EnvValue α)
  | [], _ => none
  | kv :: rest, key => if kv.1 = key then some kv.2 else getField rest key

/-- Whether a JSON object modelled as an association list has a field. -/
def hasField {α : Type} (e : List (String × EnvValue α)) (key : String) : Bool :=
  (e.map Prod.fst).contains key

/-- Success response of the ticker handler: success, count, timestamp, data
with the filtered ticker array. -/
def tickerHandlerResponse (ts : String) (upstream : List SymbolEntry) :
    List (String × EnvValue (List SymbolEntry)) :=
  [("success", .bool true),
   ("count", .num ((filterTicker upstream).length : ℚ)),
   ("timestamp", .str ts),
   ("data", .payload (filterTicker upstream))]

/-- Success response of the price handler: success, timestamp, data with the
upstream payload passed through. -/
def priceHandlerResponse {α : Type} (ts : String) (data : α) :
    List (String × EnvValue α) :=
  [("success", .bool true),
   ("timestamp", .str ts),
   ("data", .payload data)]

/-- Success response of the klines handler: success, symbol and interval as
resolved from the query (with defaults), count, timestamp, data with the
mapped candle array. -/
def klinesHandlerResponse (ts : String) (qsymbol qinterval : Option String)
    (upstream : List (List JCell)) : List (String × EnvValue (List Candle)) :=
  [("success", .bool true),
   ("symbol", .str (qsymbol.getD "BTCUSDT")),
   ("interval", .str (qinterval.getD "1h")),
   ("count", .num ((upstream.map formatKline).length : ℚ)),
   ("timestamp", .str ts),
   ("data", .payload (upstream.map formatKline))]

/-- Success response of the exchangeInfo handler: success, timestamp, and the
payload spread over top-level timezone, serverTime and symbols fields. -/
def exchangeInfoHandlerResponse (ts tz : String) (serverTime : ℚ)
    (upstreamSymbols : List SymbolEntry) : List (String × EnvValue (List SymbolEntry)) :=
  [("success", .bool true),
   ("timestamp", .str ts),
   ("timezone", .str tz),
   ("serverTime", .num serverTime),
   ("symbols", .payload (filterExchangeInfo upstreamSymbols))]

/-- Error response of the ticker handler: HTTP 500 with a fixed error string
and the underlying message under a separate message field. -/
def tickerErrorResponse (ts msg : String) : ℕ × List (String × EnvValue Unit) :=
  (500,
   [("success", .bool false),
    ("error", .str "Failed to fetch Binance data"),
    ("message", .str msg),
    ("timestamp", .str ts)])

/-- Error response of the price handler: HTTP 500 with the underlying message
verbatim in the error field. -/
def priceErrorResponse (ts msg : String) : ℕ × List (String × EnvValue Unit) :=
  (500,
   [("success", .bool false),
    ("error", .str msg),
    ("timestamp", .str ts)])

/-- Error response of the klines handler: HTTP 500 with the underlying
message verbatim in the error field. -/
def klinesErrorResponse (ts msg : String) : ℕ × List (String × EnvValue Unit) :=
  (500,
   [("success", .bool false),
    ("error", .str msg),
    ("timestamp", .str ts)])

/-- Error response of the exchangeInfo handler: HTTP 500 with the underlying
message verbatim in the error field. -/
def exchangeInfoErrorResponse (ts msg : String) : ℕ × List (String × EnvValue Unit) :=
  (500,
   [("success", .bool false),
    ("error", .str msg),
    ("timestamp", .str ts)])

/-- A 201-character response body, longer than the 200-character truncation
applied by fetchBinanceUS. -/
def longBody : String :=
  String.mk (List.replicate 201 'a')

/-- Reading a Nat back out of Char.ofNat below the surrogate range. -/
theorem toNat_charOfNat_of_lt (n : ℕ) (h : n < 55296) : (Char.ofNat n).toNat = n := by
  simp only [Char.ofNat]
  rw [dif_pos (Or.inl h)]
  rfl

/-- Uppercasing a character never yields an ASCII lowercase letter. -/
theorem isAsciiLowerChar_toUpper (c : Char) : isAsciiLowerChar (Char.toUpper c) = false := by
  simp only [Char.toUpper, isAsciiLowerChar]
  split
  case isTrue h =>
    rw [toNat_charOfNat_of_lt _ (by omega)]
    simp only [Bool.and_eq_false_iff, decide_eq_false_iff_not]
    omega
  case isFalse h =>
    simp only [Bool.and_eq_false_iff, decide_eq_false_iff_not]
    omega

/-- An uppercased string contains no ASCII lowercase letter. -/
theorem hasAsciiLower_jsToUpper (s : String) : hasAsciiLower (jsToUpper s) = false := by
  simp only [hasAsciiLower, jsToUpper, List.any_map]
  rw [List.any_eq_false]
  intro c _
  simp [Function.comp, isAsciiLowerChar_toUpper]

/-- Indexing past the end of a row yields undefined. -/
theorem jsIndex_of_length_le (row : List JCell) (i : ℕ) (h : row.length ≤ i) :
    jsIndex row i = .undef := by
  induction row generalizing i with
  | nil => cases i <;> rfl
  | cons c cs ih =>
    cases i with
    | zero => simp at h
    | succ n => exact ih n (by simpa using h)

/-- Claim C1, counterexample: fetchBinance registers no timeout handler, so a
call whose upstream never responds never settles - in particular it does not
reject with Request timeout, contradicting the claim for fetchBinance. -/
theorem fetchBinance_no_timeout_cex :
    fetchOutcome fetchBinanceCfg (fun _ => (none : Option Unit)) FetchEvent.silence = none ∧
    fetchOutcome fetchBinanceCfg (fun _ => (none : Option Unit)) FetchEvent.silence ≠
      some (Except.error "Request timeout") := by
  refine ⟨rfl, ?_⟩
  intro h
  exact Option.noConfusion h

/-- Claim C1, amended: fetchBinanceUS and fetchBinanceData register a
10000 ms timeout that destroys the request and reject with Request timeout
when no response arrives, while fetchBinance registers no timeout and a call
with no response hangs forever. -/
theorem fetch_timeout_amended {α : Type} (parse : String → Option α) :
    fetchBinanceUSCfg.timeout =
      some { ms := 10000, message := "Request timeout", destroysRequest := true } ∧
    fetchBinanceDataCfg.timeout =
      some { ms := 10000, message := "Request timeout", destroysRequest := true } ∧
    fetchOutcome fetchBinanceUSCfg parse FetchEvent.silence =
      some (.error "Request timeout") ∧
    fetchOutcome fetchBinanceDataCfg parse FetchEvent.silence =
      some (.error "Request timeout") ∧
    fetchBinanceCfg.timeout = none ∧
    fetchOutcome fetchBinanceCfg parse FetchEvent.silence = none :=
  ⟨rfl, rfl, rfl, rfl, rfl, rfl⟩

set_option maxRecDepth 8000 in
/-- Claim C2, counterexample: on a 201-character body, fetchBinanceUS rejects
with the body truncated to its first 200 characters, not the complete body. -/
theorem http_error_truncation_cex :
    fetchOutcome fetchBinanceUSCfg (fun _ => (none : Option Unit)) (.response 429 longBody) ≠
      some (.error ("HTTP 429: " ++ longBody)) := by
  have e : fetchOutcome fetchBinanceUSCfg (fun _ => (none : Option Unit)) (.response 429 longBody) =
      some (.error ("HTTP 429: " ++ jsSubstring0 longBody 200)) := rfl
  rw [e]
  intro h
  exact absurd (Except.error.inj (Option.some.inj h)) (by decide)

/-- Claim C2, amended: on a non-200 status, fetchBinance and fetchBinanceData
reject with HTTP (code): (body) carrying the complete accumulated body, while
fetchBinanceUS carries only the first 200 characters of the body. -/
theorem http_error_message_amended {α : Type} (parse : String → Option α) (status : ℕ)
    (body : String) (h : status ≠ 200) :
    fetchOutcome fetchBinanceCfg parse (.response status body) =
      some (.error ("HTTP " ++ toString status ++ ": " ++ body)) ∧
    fetchOutcome fetchBinanceDataCfg parse (.response status body) =
      some (.error ("HTTP " ++ toString status ++ ": " ++ body)) ∧
    fetchOutcome fetchBinanceUSCfg parse (.response status body) =
      some (.error ("HTTP " ++ toString status ++ ": " ++ jsSubstring0 body 200)) := by
  refine ⟨?_, ?_, ?_⟩ <;>
    · simp only [fetchOutcome, if_neg h]
      rfl

/-- Witness for the amended C2 theorem at status 429. -/
theorem http_error_message_amended_witness :
    (429 : ℕ) ≠ 200 ∧
    fetchOutcome fetchBinanceCfg (fun _ => (none : Option Unit)) (.response 429 "rate limited") =
      some (.error ("HTTP " ++ toString (429 : ℕ) ++ ": " ++ "rate limited")) :=
  ⟨by decide,
   (http_error_message_amended (fun _ => (none : Option Unit)) 429 "rate limited" (by decide)).1⟩

/-- Claim C3: the ticker and exchange-info filters exclude every entry whose
symbol is outside the respective allow-list, keep every occurrence of an
allow-listed entry with its input multiplicity (hence exactly once on a
duplicate-free input), and produce a sublist of the input, preserving order. -/
theorem filter_allowlist_spec (data symbols : List SymbolEntry) :
    (∀ t : SymbolEntry, t.symbol ∉ mainPairsTicker → t ∉ filterTicker data) ∧
    (∀ t : SymbolEntry, t.symbol ∈ mainPairsTicker →
      (filterTicker data).count t = data.count t) ∧
    (data.Nodup → ∀ t ∈ data, t.symbol ∈ mainPairsTicker →
      (filterTicker data).count t = 1) ∧
    List.Sublist (filterTicker data) data ∧
    (∀ t : SymbolEntry, t.symbol ∉ mainPairsExchangeInfo → t ∉ filterExchangeInfo symbols) ∧
    (∀ t : SymbolEntry, t.symbol ∈ mainPairsExchangeInfo →
      (filterExchangeInfo symbols).count t = symbols.count t) ∧
    (symbols.Nodup → ∀ t ∈ symbols, t.symbol ∈ mainPairsExchangeInfo →
      (filterExchangeInfo symbols).count t = 1) ∧
    List.Sublist (filterExchangeInfo symbols) symbols := by
  refine ⟨?_, ?_, ?_, List.filter_sublist data, ?_, ?_, ?_, List.filter_sublist symbols⟩
  · intro t h hmem
    rw [filterTicker, List.mem_filter] at hmem
    exact h (List.elem_iff.mp hmem.2)
  · intro t h
    rw [filterTicker, List.count_filter]
    simpa using List.elem_iff.mpr h
  · intro hd t hm h
    rw [filterTicker, List.count_filter (by simpa using List.elem_iff.mpr h)]
    exact List.count_eq_one_of_mem hd hm
  · intro t h hmem
    rw [filterExchangeInfo, List.mem_filter] at hmem
    exact h (List.elem_iff.mp hmem.2)
  · intro t h
    rw [filterExchangeInfo, List.count_filter]
    simpa using List.elem_iff.mpr h
  · intro hd t hm h
    rw [filterExchangeInfo, List.count_filter (by simpa using List.elem_iff.mpr h)]
    exact List.count_eq_one_of_mem hd hm

/-- Witness for the C3 theorem on concrete two-element ticker input and
one-element exchange-info input. -/
theorem filter_allowlist_spec_witness :
    (⟨"FOO", []⟩ : SymbolEntry) ∉ filterTicker [⟨"BTCUSDT", []⟩, ⟨"FOO", []⟩] ∧
    (filterTicker [⟨"BTCUSDT", []⟩, ⟨"FOO", []⟩]).count ⟨"BTCUSDT", []⟩ = 1 ∧
    (filterExchangeInfo [⟨"ETHUSDT", []⟩]).count ⟨"ETHUSDT", []⟩ = 1 := by
  have h := filter_allowlist_spec [⟨"BTCUSDT", []⟩, ⟨"FOO", []⟩] [⟨"ETHUSDT", []⟩]
  exact ⟨h.1 _ (by decide),
         h.2.2.1 (by decide) _ (by decide) (by decide),
         h.2.2.2.2.2.2.1 (by decide) _ (by decide) (by decide)⟩

/-- Claim C4: on the fixed 12-element row shape, the candle mapper takes the
fields positionally from indices 0 to 6 and 8, parsing the OHLCV strings as
the corresponding numbers. -/
theorem kline_positional_map (T T2 : ℚ) (x r9 r10 r11 : JCell) :
    formatKline [.num T, .str "100.0", .str "110.0", .str "90.0", .str "105.0", .str "50.0",
      .num T2, x, .num 42, r9, r10, r11] =
    { openTime := .num T, open_ := .num 100, high := .num 110, low := .num 90,
      close := .num 105, volume := .num 50, closeTime := .num T2, trades := .num 42 } := rfl

/-- Claim C5, counterexample: the klines handler interpolates a supplied
lowercase symbol into the upstream URL verbatim, without uppercasing it. -/
theorem klines_symbol_not_uppercased_cex :
    klinesUrl (some "btcusdt") none none =
      "https://api.binance.com/api/v3/klines?symbol=btcusdt&interval=1h&limit=60" ∧
    klinesUrl (some "btcusdt") none none ≠
      "https://api.binance.com/api/v3/klines?symbol=BTCUSDT&interval=1h&limit=60" :=
  ⟨rfl, by decide⟩

/-- Claim C5, amended: the price handler uppercases a supplied symbol before
building the upstream URL (so the forwarded symbol has no ASCII lowercase
letter), while the klines handler forwards the supplied symbol verbatim. -/
theorem symbol_forwarding_amended (s : String) (qi ql : Option String) :
    priceUrl (some s) = "https://api.binance.com/api/v3/ticker/price?symbol=" ++ jsToUpper s ∧
    hasAsciiLower (jsToUpper s) = false ∧
    priceUrl none = "https://api.binance.com/api/v3/ticker/price" ∧
    klinesUrl (some s) qi ql =
      "https://api.binance.com/api/v3/klines?symbol=" ++ s ++ "&interval=" ++ qi.getD "1h" ++
        "&limit=" ++ ql.getD "60" :=
  ⟨rfl, hasAsciiLower_jsToUpper s, rfl, rfl⟩

/-- Claim C6, counterexample: the exchangeInfo success response has no data
field at all - its payload sits under top-level fields instead. -/
theorem exchangeInfo_no_data_field_cex :
    hasField (exchangeInfoHandlerResponse "2024-01-01T00:00:00.000Z" "UTC" 0 []) "data" = false ∧
    getField (exchangeInfoHandlerResponse "2024-01-01T00:00:00.000Z" "UTC" 0 []) "data" = none :=
  ⟨rfl, rfl⟩

/-- Claim C6, amended: the ticker, price and klines success responses carry
success true, the timestamp, and the payload under data; the exchangeInfo
success response carries success true and the timestamp but no data field,
its payload sitting under top-level timezone, serverTime and symbols. -/
theorem success_envelope_amended (ts tz : String) (st : ℚ) (upstream syms : List SymbolEntry)
    (rows : List (List JCell)) (qs qi : Option String) (α : Type) (pdata : α) :
    getField (tickerHandlerResponse ts upstream) "success" = some (.bool true) ∧
    getField (tickerHandlerResponse ts upstream) "timestamp" = some (.str ts) ∧
    getField (tickerHandlerResponse ts upstream) "data" =
      some (.payload (filterTicker upstream)) ∧
    getField (priceHandlerResponse ts pdata) "success" = some (.bool true) ∧
    getField (priceHandlerResponse ts pdata) "timestamp" = some (.str ts) ∧
    getField (priceHandlerResponse ts pdata) "data" = some (.payload pdata) ∧
    getField (klinesHandlerResponse ts qs qi rows) "success" = some (.bool true) ∧
    getField (klinesHandlerResponse ts qs qi rows) "timestamp" = some (.str ts) ∧
    getField (klinesHandlerResponse ts qs qi rows) "data" =
      some (.payload (rows.map formatKline)) ∧
    getField (exchangeInfoHandlerResponse ts tz st syms) "success" = some (.bool true) ∧
    getField (exchangeInfoHandlerResponse ts tz st syms) "timestamp" = some (.str ts) ∧
    hasField (exchangeInfoHandlerResponse ts tz st syms) "data" = false ∧
    getField (exchangeInfoHandlerResponse ts tz st syms) "symbols" =
      some (.payload (filterExchangeInfo syms)) :=
  ⟨rfl, rfl, rfl, rfl, rfl, rfl, rfl, rfl, rfl, rfl, rfl, rfl, rfl⟩

/-- Claim C7, counterexample: on a failed fetch the ticker handler sets the
error field to the fixed string Failed to fetch Binance data, not to the
underlying message. -/
theorem ticker_error_masked_cex :
    getField (tickerErrorResponse "2024-01-01T00:00:00.000Z" "Request timeout").2 "error" =
      some (.str "Failed to fetch Binance data") ∧
    getField (tickerErrorResponse "2024-01-01T00:00:00.000Z" "Request timeout").2 "error" ≠
      some (.str "Request timeout") :=
  ⟨rfl, by decide⟩

/-- Claim C7, amended: every upstream-backed handler responds to a failed
fetch with HTTP 500 and success false; the price, klines and exchangeInfo
handlers carry the underlying message verbatim in the error field, while the
ticker handler masks the error field with a fixed string and carries the
verbatim message under a separate message field. -/
theorem error_envelope_amended (ts msg : String) :
    (tickerErrorResponse ts msg).1 = 500 ∧
    getField (tickerErrorResponse ts msg).2 "success" = some (.bool false) ∧
    getField (tickerErrorResponse ts msg).2 "error" =
      some (.str "Failed to fetch Binance data") ∧
    getField (tickerErrorResponse ts msg).2 "message" = some (.str msg) ∧
    getField (tickerErrorResponse ts msg).2 "timestamp" = some (.str ts) ∧
    (priceErrorResponse ts msg).1 = 500 ∧
    getField (priceErrorResponse ts msg).2 "success" = some (.bool false) ∧
    getField (priceErrorResponse ts msg).2 "error" = some (.str msg) ∧
    getField (priceErrorResponse ts msg).2 "timestamp" = some (.str ts) ∧
    (klinesErrorResponse ts msg).1 = 500 ∧
    getField (klinesErrorResponse ts msg).2 "error" = some (.str msg) ∧
    (exchangeInfoErrorResponse ts msg).1 = 500 ∧
    getField (exchangeInfoErrorResponse ts msg).2 "error" = some (.str msg) :=
  ⟨rfl, rfl, rfl, rfl, rfl, rfl, rfl, rfl, rfl, rfl, rfl, rfl, rfl⟩

/-- Claim C8: after a 200 status, each of the three fetch helpers rejects
with Invalid JSON response exactly when the body fails to parse, and resolves
with the parsed value when it parses. -/
theorem fetch_json_parse_spec {α : Type} (parse : String → Option α) (body : String) :
    (parse body = none →
      fetchOutcome fetchBinanceCfg parse (.response 200 body) =
        some (.error "Invalid JSON response") ∧
      fetchOutcome fetchBinanceUSCfg parse (.response 200 body) =
        some (.error "Invalid JSON response") ∧
      fetchOutcome fetchBinanceDataCfg parse (.response 200 body) =
        some (.error "Invalid JSON response")) ∧
    (∀ v : α, parse body = some v →
      fetchOutcome fetchBinanceCfg parse (.response 200 body) = some (.ok v) ∧
      fetchOutcome fetchBinanceUSCfg parse (.response 200 body) = some (.ok v) ∧
      fetchOutcome fetchBinanceDataCfg parse (.response 200 body) = some (.ok v)) := by
  constructor
  · intro h
    refine ⟨?_, ?_, ?_⟩ <;> simp [fetchOutcome, h]
  · intro v h
    refine ⟨?_, ?_, ?_⟩ <;> simp [fetchOutcome, h]

/-- Witness for the C8 theorem with a failing and a succeeding parse. -/
theorem fetch_json_parse_spec_witness :
    fetchOutcome fetchBinanceCfg (fun _ => (none : Option Unit)) (.response 200 "not json") =
      some (.error "Invalid JSON response") ∧
    fetchOutcome fetchBinanceCfg (fun _ => some (42 : ℚ)) (.response 200 "42") =
      some (.ok 42) :=
  ⟨((fetch_json_parse_spec (fun _ => (none : Option Unit)) "not json").1 rfl).1,
   ((fetch_json_parse_spec (fun _ => some (42 : ℚ)) "42").2 42 rfl).1⟩

/-- Claim C9: in the ticker and klines success responses, the count field
equals the length of the array under the data field. -/
theorem count_matches_data_length (ts : String) (upstream : List SymbolEntry)
    (qs qi : Option String) (rows : List (List JCell)) :
    (∀ (d : List SymbolEntry) (c : ℚ),
      getField (tickerHandlerResponse ts upstream) "data" = some (.payload d) →
      getField (tickerHandlerResponse ts upstream) "count" = some (.num c) →
      c = (d.length : ℚ)) ∧
    (∀ (d : List Candle) (c : ℚ),
      getField (klinesHandlerResponse ts qs qi rows) "data" = some (.payload d) →
      getField (klinesHandlerResponse ts qs qi rows) "count" = some (.num c) →
      c = (d.length : ℚ)) := by
  constructor
  · intro d c hd hc
    have e1 : getField (tickerHandlerResponse ts upstream) "data" =
        some (.payload (filterTicker upstream)) := rfl
    have e2 : getField (tickerHandlerResponse ts upstream) "count" =
        some (.num ((filterTicker upstream).length : ℚ)) := rfl
    rw [e1] at hd
    rw [e2] at hc
    rw [← EnvValue.payload.inj (Option.some.inj hd), ← EnvValue.num.inj (Option.some.inj hc)]
  · intro d c hd hc
    have e1 : getField (klinesHandlerResponse ts qs qi rows) "data" =
        some (.payload (rows.map formatKline)) := rfl
    have e2 : getField (klinesHandlerResponse ts qs qi rows) "count" =
        some (.num ((rows.map formatKline).length : ℚ)) := rfl
    rw [e1] at hd
    rw [e2] at hc
    rw [← EnvValue.payload.inj (Option.some.inj hd), ← EnvValue.num.inj (Option.some.inj hc)]

/-- Witness for the C9 theorem on a one-entry ticker response. -/
theorem count_matches_data_length_witness :
    (1 : ℚ) = (([⟨"BTCUSDT", []⟩] : List SymbolEntry).length : ℚ) :=
  (count_matches_data_length "T" [⟨"BTCUSDT", []⟩] none none []).1
    [⟨"BTCUSDT", []⟩] 1 (by decide) (by decide)

/-- Claim C10: the candle mapper is total on rows of any length - it maps
every row array elementwise, and on rows shorter than 9 elements the missing
time and trades positions come out undefined while missing OHLCV positions
parse to NaN, with no failure. -/
theorem kline_map_total (row : List JCell) (rows : List (List JCell)) (h : row.length ≤ 8) :
    (rows.map formatKline).length = rows.length ∧
    (formatKline row).trades = JCell.undef ∧
    (row.length ≤ 6 → (formatKline row).closeTime = JCell.undef) ∧
    (row.length ≤ 1 →
      (formatKline row).open_ = JNum.nan ∧ (formatKline row).high = JNum.nan ∧
      (formatKline row).low = JNum.nan ∧ (formatKline row).close = JNum.nan ∧
      (formatKline row).volume = JNum.nan) ∧
    (row.length = 0 → (formatKline row).openTime = JCell.undef) := by
  have hnan : ∀ i, row.length ≤ i → jsParseFloat (jsIndex row i) = JNum.nan := by
    intro i hi
    rw [jsIndex_of_length_le row i hi]
    rfl
  refine ⟨List.length_map rows formatKline, jsIndex_of_length_le row 8 h, ?_, ?_, ?_⟩
  · intro h6
    exact jsIndex_of_length_le row 6 h6
  · intro h1
    exact ⟨hnan 1 (by omega), hnan 2 (by omega), hnan 3 (by omega),
           hnan 4 (by omega), hnan 5 (by omega)⟩
  · intro h0
    exact jsIndex_of_length_le row 0 (by omega)

/-- Witness for the C10 theorem on the empty row. -/
theorem kline_map_total_witness :
    (formatKline []).trades = JCell.undef ∧ (formatKline []).open_ = JNum.nan := by
  have h := kline_map_total [] [] (by decide)
  exact ⟨h.2.1, (h.2.2.2.1 (by decide)).1⟩

end CryptoSim
